import Mathlib

/-!
The module i.vi: per-pixel vegetation-index dispatch and null propagation.

Shallow embedding of `imagery/i.vi/main.c`.

* Raster cells (`DCELL`, a C `double`) are rendered as either the null
  (no-data) pattern or the exact rational value of the double. The one
  arithmetic operation `main` performs itself, the sum in the ndvi guard at
  line 261, is IEEE 754 binary64 addition: the exact sum rounded to nearest,
  ties to even (each operation rounded to double, no extended precision).
* The fourteen index functions are only declared in `main.c` (lines 33-48);
  their bodies live in other translation units, so they enter the model as a
  parameter `Lib`.
* The raster storage backend (`G_open_cell_old`, `G_get_d_raster_row`,
  `G_put_d_raster_row`, ...) enters as a parameter `Env`.
* The row-buffer pointers of the optional bands are assigned only when the
  band is supplied (lines 165-187), while lines 241-244 load through all six
  for every pixel. A load through a pointer that was never assigned is
  undefined behaviour; the run then ends in `Stop.undefinedLoad`.
-/

namespace IVi

/-! ## Double arithmetic -/

/-- Rounding of a rational to the nearest integer, ties to the even one. -/
def roundEven (q : ℚ) : ℤ :=
  if q - ⌊q⌋ < 1 / 2 then ⌊q⌋
  else if 1 / 2 < q - ⌊q⌋ then ⌊q⌋ + 1
  else if ⌊q⌋ % 2 = 0 then ⌊q⌋ else ⌊q⌋ + 1

/-- Exponent of the spacing of the binary64 numbers around `x`: 52 below the
binary exponent of `x`, the latter not below -1022 (subnormal range). -/
def ulpExp (x : ℚ) : ℤ :=
  max (Int.log 2 |x|) (-1022) - 52

/-- Rounding of a rational to binary64, to nearest with ties to even. Values
of magnitude 2^1024 and above stand for the infinities; they compare with
0.001 as the infinities do. -/
def binary64 (x : ℚ) : ℚ :=
  roundEven (x / 2 ^ ulpExp x) * 2 ^ ulpExp x

/-! ## Data model -/

/-- A raster cell of type DCELL: the null (no-data) pattern or a number. -/
inductive DCELL where
  | null : DCELL
  | val : ℚ → DCELL
deriving DecidableEq

namespace DCELL

/-- The test `G_is_d_null_value(&c)`. -/
def G_is_d_null_value : DCELL → Bool
  | null => true
  | val _ => false

/-- The double sum `a + b` of two cells; the null pattern is a NaN and
absorbs. -/
def add : DCELL → DCELL → DCELL
  | val x, val y => val (binary64 (x + y))
  | _, _ => null

/-- The comparison `a < q` of a cell with a double; false on a NaN. -/
def lt : DCELL → ℚ → Bool
  | val x, q => decide (x < q)
  | null, _ => false

end DCELL

/-- The fourteen index functions declared at lines 33-48 of main.c, each with
its declared parameter order. -/
structure Lib where
  s_r : DCELL → DCELL → DCELL
  nd_vi : DCELL → DCELL → DCELL
  ip_vi : DCELL → DCELL → DCELL
  d_vi : DCELL → DCELL → DCELL
  e_vi : DCELL → DCELL → DCELL → DCELL
  p_vi : DCELL → DCELL → DCELL
  wd_vi : DCELL → DCELL → DCELL
  sa_vi : DCELL → DCELL → DCELL
  msa_vi : DCELL → DCELL → DCELL
  msa_vi2 : DCELL → DCELL → DCELL
  ge_mi : DCELL → DCELL → DCELL
  ar_vi : DCELL → DCELL → DCELL → DCELL
  g_vi : DCELL → DCELL → DCELL → DCELL → DCELL → DCELL → DCELL
  ga_ri : DCELL → DCELL → DCELL → DCELL → DCELL

/-- The parsed option answers (lines 148-155): the selector, the two mandatory
map names, the four optional map names (`none` is a NULL answer) and the
output map name. -/
structure Config where
  viflag : String
  redchan : String
  nirchan : String
  greenchan : Option String
  bluechan : Option String
  chan5chan : Option String
  chan7chan : Option String
  result : String

/-- The six per-pixel locals `d_redchan` ... `d_chan7chan` (lines 200-205). -/
structure Bundle where
  d_redchan : DCELL
  d_nirchan : DCELL
  d_greenchan : DCELL
  d_bluechan : DCELL
  d_chan5chan : DCELL
  d_chan7chan : DCELL

/-- The selector names listed in the `viname` option description
(lines 87-100), in that order. -/
def viNames : List String :=
  ["sr", "ndvi", "ipvi", "dvi", "evi", "pvi", "wdvi", "savi", "msavi",
   "msavi2", "gemi", "arvi", "gvi", "gari"]

/-! ## Per-pixel processing (lines 246-303) -/

/-- The fourteen sequential `if (!strcmp(viflag, ...))` statements of the
else-branch (lines 255-302), threading the content of `outrast[col]`. The
literal `0.001` of line 261 is the double nearest to 1/1000. -/
def dispatch (lib : Lib) (viflag : String) (b : Bundle) (cell : DCELL) : DCELL :=
  let c := if viflag = "sr" then lib.s_r b.d_redchan b.d_nirchan else cell
  let c := if viflag = "ndvi" then
      (if (b.d_redchan.add b.d_nirchan).lt (binary64 (1 / 1000)) then DCELL.null
       else lib.nd_vi b.d_redchan b.d_nirchan)
    else c
  let c := if viflag = "ipvi" then lib.ip_vi b.d_redchan b.d_nirchan else c
  let c := if viflag = "dvi" then lib.d_vi b.d_redchan b.d_nirchan else c
  let c := if viflag = "evi" then lib.e_vi b.d_bluechan b.d_redchan b.d_nirchan else c
  let c := if viflag = "pvi" then lib.p_vi b.d_redchan b.d_nirchan else c
  let c := if viflag = "wdvi" then lib.wd_vi b.d_redchan b.d_nirchan else c
  let c := if viflag = "savi" then lib.sa_vi b.d_redchan b.d_nirchan else c
  let c := if viflag = "msavi" then lib.msa_vi b.d_redchan b.d_nirchan else c
  let c := if viflag = "msavi2" then lib.msa_vi2 b.d_redchan b.d_nirchan else c
  let c := if viflag = "gemi" then lib.ge_mi b.d_redchan b.d_nirchan else c
  let c := if viflag = "arvi" then lib.ar_vi b.d_redchan b.d_nirchan b.d_bluechan else c
  let c := if viflag = "gvi" then
      lib.g_vi b.d_bluechan b.d_greenchan b.d_redchan b.d_nirchan b.d_chan5chan b.d_chan7chan
    else c
  let c := if viflag = "gari" then lib.ga_ri b.d_redchan b.d_nirchan b.d_bluechan b.d_greenchan else c
  c

/-- The null test of lines 246-251: red, nir, and every optional band whose
option answer is non-NULL. -/
def anyNull (cfg : Config) (b : Bundle) : Bool :=
  b.d_redchan.G_is_d_null_value || b.d_nirchan.G_is_d_null_value ||
  (cfg.greenchan.isSome && b.d_greenchan.G_is_d_null_value) ||
  (cfg.bluechan.isSome && b.d_bluechan.G_is_d_null_value) ||
  (cfg.chan5chan.isSome && b.d_chan5chan.G_is_d_null_value) ||
  (cfg.chan7chan.isSome && b.d_chan7chan.G_is_d_null_value)

/-- The body of the column loop after the six loads (lines 246-303): the new
content of `outrast[col]`, given its previous content `cell`. -/
def pixel (lib : Lib) (cfg : Config) (b : Bundle) (cell : DCELL) : DCELL :=
  if anyNull cfg b then DCELL.null else dispatch lib cfg.viflag b cell

/-! ## Raster storage backend and the run (lines 157-308) -/

/-- A row buffer (`DCELL *`), indexed by column. -/
abbrev RowBuf := Nat → DCELL

/-- An opened raster map: `G_get_d_raster_row` at a row yields that row, or
`none` when the call returns a negative value. -/
abbrev RasterMap := Nat → Option RowBuf

/-- The raster storage backend and the current region, as seen by `main`.
`G_open_cell_old name` is the opened map, or `none` when the call returns a
negative value; `G_open_raster_new name` and `G_put_d_raster_row row` tell
whether the call succeeds; `nrows` and `ncols` are `G_window_rows()` and
`G_window_cols()`; `outInit` is the content of `outrast` as allocated at
line 191. -/
structure Env where
  G_open_cell_old : String → Option RasterMap
  G_open_raster_new : String → Bool
  nrows : Nat
  ncols : Nat
  G_put_d_raster_row : Nat → Bool
  outInit : RowBuf

/-- The calls to `G_fatal_error` in `main`. -/
inductive Fatal where
  | openOld (name : String)
  | openNew (name : String)
  | readRow (name : String) (row : Nat)
  | putRow (name : String) (row : Nat)
deriving DecidableEq

/-- The ways a run ends without completing: a call to `G_fatal_error`, or a
load through a row-buffer pointer that was never assigned (undefined
behaviour), at the given row and column. -/
inductive Stop where
  | fatal (e : Fatal)
  | undefinedLoad (row col : Nat)
deriving DecidableEq

/-- The input file descriptors after lines 157-187. -/
structure Handles where
  infd_redchan : RasterMap
  infd_nirchan : RasterMap
  infd_greenchan : Option RasterMap
  infd_bluechan : Option RasterMap
  infd_chan5chan : Option RasterMap
  infd_chan7chan : Option RasterMap

/-- The six input row buffers `inrast_redchan` ... `inrast_chan7chan`
(lines 68-69). The pointers of the four optional bands are assigned only
inside `if (greenchan)` ... `if (chan7chan)` (lines 165-187); `none` is a
pointer that was never assigned. -/
structure Bufs where
  inrast_redchan : RowBuf
  inrast_nirchan : RowBuf
  inrast_greenchan : Option RowBuf
  inrast_bluechan : Option RowBuf
  inrast_chan5chan : Option RowBuf
  inrast_chan7chan : Option RowBuf

/-- Opening a mandatory map (lines 157-163). -/
def openBand (env : Env) (name : String) : Except Fatal RasterMap :=
  match env.G_open_cell_old name with
  | some m => .ok m
  | none => .error (Fatal.openOld name)

/-- Opening an optional map, only when its answer is non-NULL
(lines 165-187). -/
def openOptional (env : Env) : Option String → Except Fatal (Option RasterMap)
  | none => .ok none
  | some name =>
    match env.G_open_cell_old name with
    | some m => .ok (some m)
    | none => .error (Fatal.openOld name)

/-- Everything `main` does between option parsing and the row loop
(lines 157-195): open red, nir and the supplied optional maps, then create
the output map. The selector `viflag` is not looked at. -/
def configure (env : Env) (cfg : Config) : Except Fatal Handles :=
  match openBand env cfg.redchan with
  | .error e => .error e
  | .ok red =>
  match openBand env cfg.nirchan with
  | .error e => .error e
  | .ok nir =>
  match openOptional env cfg.greenchan with
  | .error e => .error e
  | .ok green =>
  match openOptional env cfg.bluechan with
  | .error e => .error e
  | .ok blue =>
  match openOptional env cfg.chan5chan with
  | .error e => .error e
  | .ok chan5 =>
  match openOptional env cfg.chan7chan with
  | .error e => .error e
  | .ok chan7 =>
  if env.G_open_raster_new cfg.result then .ok ⟨red, nir, green, blue, chan5, chan7⟩
  else .error (Fatal.openNew cfg.result)

/-- Reading one row of a mandatory map (lines 209-214). -/
def getRow (m : RasterMap) (name : String) (row : Nat) : Except Fatal RowBuf :=
  match m row with
  | some r => .ok r
  | none => .error (Fatal.readRow name row)

/-- Reading one row of an optional map (lines 215-234): skipped when the
answer is NULL, and then the buffer pointer stays unassigned. -/
def getOptionalRow (name : Option String) (fd : Option RasterMap) (row : Nat) :
    Except Fatal (Option RowBuf) :=
  match name with
  | none => .ok none
  | some n =>
    match fd with
    | some m =>
      match getRow m n row with
      | .error e => .error e
      | .ok r => .ok (some r)
    | none => .error (Fatal.readRow n row)

/-- The six row reads at the top of the row loop (lines 209-234). -/
def readRows (cfg : Config) (h : Handles) (row : Nat) : Except Fatal Bufs :=
  match getRow h.infd_redchan cfg.redchan row with
  | .error e => .error e
  | .ok red =>
  match getRow h.infd_nirchan cfg.nirchan row with
  | .error e => .error e
  | .ok nir =>
  match getOptionalRow cfg.greenchan h.infd_greenchan row with
  | .error e => .error e
  | .ok green =>
  match getOptionalRow cfg.bluechan h.infd_bluechan row with
  | .error e => .error e
  | .ok blue =>
  match getOptionalRow cfg.chan5chan h.infd_chan5chan row with
  | .error e => .error e
  | .ok chan5 =>
  match getOptionalRow cfg.chan7chan h.infd_chan7chan row with
  | .error e => .error e
  | .ok chan7 => .ok ⟨red, nir, green, blue, chan5, chan7⟩

/-- The six loads at the top of the column loop (lines 239-244), executed
for every pixel whether or not the band is supplied; `none` when one of them
goes through a pointer that was never assigned. -/
def load (bufs : Bufs) (col : Nat) : Option Bundle :=
  match bufs.inrast_greenchan, bufs.inrast_bluechan, bufs.inrast_chan5chan,
    bufs.inrast_chan7chan with
  | some green, some blue, some chan5, some chan7 =>
    some ⟨bufs.inrast_redchan col, bufs.inrast_nirchan col, green col, blue col,
      chan5 col, chan7 col⟩
  | _, _, _, _ => none

/-- The column loop `for (col = 0; col < ncols; col++)` (lines 237-304):
`n` iterations remain, the next one is at `col`. The result is the row
buffer after the loop, or the column at which a load was undefined. -/
def colLoop (lib : Lib) (cfg : Config) (bufs : Bufs) :
    Nat → Nat → RowBuf → Except Nat RowBuf
  | 0, _, outrast => .ok outrast
  | n + 1, col, outrast =>
    match load bufs col with
    | none => .error col
    | some b =>
      colLoop lib cfg bufs n (col + 1)
        (Function.update outrast col (pixel lib cfg b (outrast col)))

/-- The cells handed to `G_put_d_raster_row` (line 305). -/
def putRow (ncols : Nat) (outrast : RowBuf) : List DCELL :=
  (List.range ncols).map outrast

/-- The row loop `for (row = 0; row < nrows; row++)` (lines 198-308):
`n` iterations remain, the next one is at `row`; `written` are the rows put
so far, oldest first. -/
def rowLoop (lib : Lib) (env : Env) (cfg : Config) (h : Handles) :
    Nat → Nat → RowBuf → List (List DCELL) → Except Stop (List (List DCELL))
  | 0, _, _, written => .ok written
  | n + 1, row, outrast, written =>
    match readRows cfg h row with
    | .error e => .error (Stop.fatal e)
    | .ok bufs =>
      match colLoop lib cfg bufs env.ncols 0 outrast with
      | .error col => .error (Stop.undefinedLoad row col)
      | .ok out =>
        if env.G_put_d_raster_row row then
          rowLoop lib env cfg h n (row + 1) out (written ++ [putRow env.ncols out])
        else .error (Stop.fatal (Fatal.putRow cfg.result row))

/-- The whole of `main` after option parsing: the rows written to the output
map, or the way the run ended without completing. -/
def main (lib : Lib) (env : Env) (cfg : Config) :
    Except Stop (List (List DCELL)) :=
  match configure env cfg with
  | .error e => .error (Stop.fatal e)
  | .ok h => rowLoop lib env cfg h env.nrows 0 env.outInit []

/-! ## Bands consumed by each dispatch branch

Read off the argument lists of the calls at lines 257-302: every branch
passes `d_redchan` and `d_nirchan`; the optional bands are passed as follows. -/

/-- Selectors whose call passes `d_greenchan` (gvi, gari). -/
def usesGreen (viflag : String) : Bool :=
  viflag == "gvi" || viflag == "gari"

/-- Selectors whose call passes `d_bluechan` (evi, arvi, gvi, gari). -/
def usesBlue (viflag : String) : Bool :=
  viflag == "evi" || viflag == "arvi" || viflag == "gvi" || viflag == "gari"

/-- Selectors whose call passes `d_chan5chan` (gvi). -/
def usesChan5 (viflag : String) : Bool :=
  viflag == "gvi"

/-- Selectors whose call passes `d_chan7chan` (gvi). -/
def usesChan7 (viflag : String) : Bool :=
  viflag == "gvi"

/-- Two bundles agree on red, nir and on every optional band that the
selector's call consumes. -/
def agreeOnUsed (viflag : String) (a b : Bundle) : Prop :=
  a.d_redchan = b.d_redchan ∧ a.d_nirchan = b.d_nirchan ∧
  (usesGreen viflag = true → a.d_greenchan = b.d_greenchan) ∧
  (usesBlue viflag = true → a.d_bluechan = b.d_bluechan) ∧
  (usesChan5 viflag = true → a.d_chan5chan = b.d_chan5chan) ∧
  (usesChan7 viflag = true → a.d_chan7chan = b.d_chan7chan)

/-- The selector's call consumes an optional band whose answer is NULL. -/
def requiresMissing (cfg : Config) : Bool :=
  (usesGreen cfg.viflag && cfg.greenchan.isNone) ||
  (usesBlue cfg.viflag && cfg.bluechan.isNone) ||
  (usesChan5 cfg.viflag && cfg.chan5chan.isNone) ||
  (usesChan7 cfg.viflag && cfg.chan7chan.isNone)

/-! ## Input rasters of a run with all six bands -/

/-- Six co-registered rasters: the cell of each band at a row and column. -/
structure Scene where
  red : Nat → Nat → DCELL
  nir : Nat → Nat → DCELL
  green : Nat → Nat → DCELL
  blue : Nat → Nat → DCELL
  chan5 : Nat → Nat → DCELL
  chan7 : Nat → Nat → DCELL

/-- The six cells of a scene at one row and column. -/
def Scene.bundle (s : Scene) (row col : Nat) : Bundle :=
  ⟨s.red row col, s.nir row col, s.green row col, s.blue row col,
   s.chan5 row col, s.chan7 row col⟩

/-- The backend holds the raster `band` under `name`: the map opens and each
row of the region reads as the row of `band`. -/
def serves (env : Env) (name : String) (band : Nat → Nat → DCELL) : Prop :=
  ∃ m, env.G_open_cell_old name = some m ∧
    ∀ row, row < env.nrows → m row = some (band row)

/-- An optional band is supplied and the backend holds `band` under its
name. -/
def suppliedAs (env : Env) (name : Option String) (band : Nat → Nat → DCELL) : Prop :=
  ∃ n, name = some n ∧ serves env n band

/-- A run over the scene `s` in which all six bands are supplied and no
backend call fails. -/
def Complete (env : Env) (cfg : Config) (s : Scene) : Prop :=
  serves env cfg.redchan s.red ∧ serves env cfg.nirchan s.nir ∧
  suppliedAs env cfg.greenchan s.green ∧ suppliedAs env cfg.bluechan s.blue ∧
  suppliedAs env cfg.chan5chan s.chan5 ∧ suppliedAs env cfg.chan7chan s.chan7 ∧
  env.G_open_raster_new cfg.result = true ∧
  ∀ row, row < env.nrows → env.G_put_d_raster_row row = true

/-- Content of column `j` of the output row buffer once rows `0 .. row-1`
of the scene have been processed, starting from `init`. -/
def sweep (lib : Lib) (cfg : Config) (s : Scene) (ncols : Nat) :
    Nat → RowBuf → RowBuf
  | 0, init => init
  | row + 1, init => fun j =>
    if j < ncols then pixel lib cfg (s.bundle row j) (sweep lib cfg s ncols row init j)
    else sweep lib cfg s ncols row init j

/-! ## Reference formulations compared with the code -/

/-- The ndvi branch taken on its own (lines 260-265). -/
def ndviBranch (lib : Lib) (b : Bundle) : DCELL :=
  if (b.d_redchan.add b.d_nirchan).lt (binary64 (1 / 1000)) then DCELL.null
  else lib.nd_vi b.d_redchan b.d_nirchan

/-- The dispatch rewritten as an if / else-if chain over the same fourteen
names, in the same order. -/
def dispatchChain (lib : Lib) (viflag : String) (b : Bundle) (cell : DCELL) : DCELL :=
  if viflag = "sr" then lib.s_r b.d_redchan b.d_nirchan
  else if viflag = "ndvi" then ndviBranch lib b
  else if viflag = "ipvi" then lib.ip_vi b.d_redchan b.d_nirchan
  else if viflag = "dvi" then lib.d_vi b.d_redchan b.d_nirchan
  else if viflag = "evi" then lib.e_vi b.d_bluechan b.d_redchan b.d_nirchan
  else if viflag = "pvi" then lib.p_vi b.d_redchan b.d_nirchan
  else if viflag = "wdvi" then lib.wd_vi b.d_redchan b.d_nirchan
  else if viflag = "savi" then lib.sa_vi b.d_redchan b.d_nirchan
  else if viflag = "msavi" then lib.msa_vi b.d_redchan b.d_nirchan
  else if viflag = "msavi2" then lib.msa_vi2 b.d_redchan b.d_nirchan
  else if viflag = "gemi" then lib.ge_mi b.d_redchan b.d_nirchan
  else if viflag = "arvi" then lib.ar_vi b.d_redchan b.d_nirchan b.d_bluechan
  else if viflag = "gvi" then lib.g_vi b.d_bluechan b.d_greenchan b.d_redchan b.d_nirchan b.d_chan5chan b.d_chan7chan
  else if viflag = "gari" then lib.ga_ri b.d_redchan b.d_nirchan b.d_bluechan b.d_greenchan
  else cell

/-- The dispatch as a table from selector name to the action of its branch. -/
def viTable (lib : Lib) : List (String × (Bundle → DCELL)) :=
  [("sr", fun b => lib.s_r b.d_redchan b.d_nirchan),
   ("ndvi", fun b => ndviBranch lib b),
   ("ipvi", fun b => lib.ip_vi b.d_redchan b.d_nirchan),
   ("dvi", fun b => lib.d_vi b.d_redchan b.d_nirchan),
   ("evi", fun b => lib.e_vi b.d_bluechan b.d_redchan b.d_nirchan),
   ("pvi", fun b => lib.p_vi b.d_redchan b.d_nirchan),
   ("wdvi", fun b => lib.wd_vi b.d_redchan b.d_nirchan),
   ("savi", fun b => lib.sa_vi b.d_redchan b.d_nirchan),
   ("msavi", fun b => lib.msa_vi b.d_redchan b.d_nirchan),
   ("msavi2", fun b => lib.msa_vi2 b.d_redchan b.d_nirchan),
   ("gemi", fun b => lib.ge_mi b.d_redchan b.d_nirchan),
   ("arvi", fun b => lib.ar_vi b.d_redchan b.d_nirchan b.d_bluechan),
   ("gvi", fun b => lib.g_vi b.d_bluechan b.d_greenchan b.d_redchan b.d_nirchan b.d_chan5chan b.d_chan7chan),
   ("gari", fun b => lib.ga_ri b.d_redchan b.d_nirchan b.d_bluechan b.d_greenchan)]

/-- First-match lookup of the selector in a table; the cell is left as it
was when no entry matches. -/
def lookupFirst (viflag : String) (b : Bundle) (cell : DCELL) :
    List (String × (Bundle → DCELL)) → DCELL
  | [] => cell
  | (name, f) :: rest => if viflag = name then f b else lookupFirst viflag b cell rest

/-- The dispatch as a first-match lookup in `viTable`. -/
def dispatchTable (lib : Lib) (viflag : String) (b : Bundle) (cell : DCELL) : DCELL :=
  lookupFirst viflag b cell (viTable lib)

/-- The outcomes of the fourteen `strcmp` tests at lines 256-301, in order. -/
def branchTests (viflag : String) : List Bool :=
  [viflag == "sr", viflag == "ndvi", viflag == "ipvi", viflag == "dvi",
   viflag == "evi", viflag == "pvi", viflag == "wdvi", viflag == "savi",
   viflag == "msavi", viflag == "msavi2", viflag == "gemi", viflag == "arvi",
   viflag == "gvi", viflag == "gari"]

/-- Modelled from the spec: the body of `nd_vi` is not in main.c, which only
declares it (line 34). Spec section 4.1: `ndvi = (nir - red) / (nir + red)`,
over exact arithmetic; a null argument gives a null result. -/
def nd_vi (redchan nirchan : DCELL) : DCELL :=
  match redchan, nirchan with
  | DCELL.val r, DCELL.val n => DCELL.val ((n - r) / (n + r))
  | _, _ => DCELL.null

/-! ## Sample data for the worked instances -/

/-- A probe library: the k-th declared function returns the constant k, so
that the branch taken is visible in the output. -/
def probeLib : Lib where
  s_r := fun _ _ => DCELL.val 1
  nd_vi := fun _ _ => DCELL.val 2
  ip_vi := fun _ _ => DCELL.val 3
  d_vi := fun _ _ => DCELL.val 4
  e_vi := fun _ _ _ => DCELL.val 5
  p_vi := fun _ _ => DCELL.val 6
  wd_vi := fun _ _ => DCELL.val 7
  sa_vi := fun _ _ => DCELL.val 8
  msa_vi := fun _ _ => DCELL.val 9
  msa_vi2 := fun _ _ => DCELL.val 10
  ge_mi := fun _ _ => DCELL.val 11
  ar_vi := fun _ _ _ => DCELL.val 12
  g_vi := fun _ _ _ _ _ _ => DCELL.val 13
  ga_ri := fun _ _ _ _ => DCELL.val 14

/-- The probe library with `nd_vi` replaced by the spec formula. -/
def ndviLib : Lib :=
  { probeLib with nd_vi := nd_vi }

/-- The probe library with `d_vi` replaced by a function returning its red
argument, so that the cell a result was computed from is visible. -/
def echoLib : Lib :=
  { probeLib with d_vi := fun redchan _ => redchan }

/-- A pixel with red = 0.2, nir = 0.5 and the given blue cell; the other
optional cells are zero. -/
def samplePixel (blue : DCELL) : Bundle :=
  ⟨DCELL.val (1 / 5), DCELL.val (1 / 2), DCELL.val 0, blue, DCELL.val 0, DCELL.val 0⟩

/-- A pixel whose red and nir are the doubles nearest to 0.0004 and 0.0003. -/
def darkPixel : Bundle :=
  ⟨DCELL.val (7378697629483821 / 2 ^ 64), DCELL.val (5534023222112865 / 2 ^ 64),
   DCELL.val 0, DCELL.val 0, DCELL.val 0, DCELL.val 0⟩

/-- A pixel whose red and nir are the doubles nearest to 0.0004 and 0.0006. -/
def boundaryPixel : Bundle :=
  ⟨DCELL.val (7378697629483821 / 2 ^ 64), DCELL.val (5534023222112865 / 2 ^ 63),
   DCELL.val 0, DCELL.val 0, DCELL.val 0, DCELL.val 0⟩

/-- Option answers with red and nir only. -/
def cfgRedNir (viflag : String) : Config :=
  ⟨viflag, "red", "nir", none, none, none, none, "out"⟩

/-- Option answers with red, nir and blue. -/
def cfgWithBlue (viflag : String) : Config :=
  ⟨viflag, "red", "nir", none, some "blue", none, none, "out"⟩

/-- Option answers with all six bands. -/
def cfgSix (viflag : String) : Config :=
  ⟨viflag, "red", "nir", some "green", some "blue", some "chan5", some "chan7", "out"⟩

/-- Option answers with every band but blue. -/
def cfgNoBlue (viflag : String) : Config :=
  ⟨viflag, "red", "nir", some "green", none, some "chan5", some "chan7", "out"⟩

/-- A raster over a 2 x 2 region, given by its four cells in row-major
order. -/
def cells (a b c d : DCELL) : Nat → Nat → DCELL
  | 0, 0 => a
  | 0, _ + 1 => b
  | _ + 1, 0 => c
  | _ + 1, _ + 1 => d

/-- A 2 x 2 scene: red 0.1 .. 0.4 and nir 0.5 .. 0.8 in row-major order,
blue null at the last cell, the other cells zero. -/
def sampleScene : Scene where
  red := cells (DCELL.val (1 / 10)) (DCELL.val (2 / 10)) (DCELL.val (3 / 10))
    (DCELL.val (4 / 10))
  nir := cells (DCELL.val (5 / 10)) (DCELL.val (6 / 10)) (DCELL.val (7 / 10))
    (DCELL.val (8 / 10))
  green := cells (DCELL.val 0) (DCELL.val 0) (DCELL.val 0) (DCELL.val 0)
  blue := cells (DCELL.val 0) (DCELL.val 0) (DCELL.val 0) DCELL.null
  chan5 := cells (DCELL.val 0) (DCELL.val 0) (DCELL.val 0) (DCELL.val 0)
  chan7 := cells (DCELL.val 0) (DCELL.val 0) (DCELL.val 0) (DCELL.val 0)

/-- A backend holding the six rasters of `sampleScene` under the names "red",
"nir", "green", "blue", "chan5" and "chan7" over a 2 x 2 region, with no
failing call and an output row buffer starting as zeros. -/
def sampleEnv : Env where
  G_open_cell_old := fun name =>
    if name = "red" then some (fun row => some (sampleScene.red row))
    else if name = "nir" then some (fun row => some (sampleScene.nir row))
    else if name = "green" then some (fun row => some (sampleScene.green row))
    else if name = "blue" then some (fun row => some (sampleScene.blue row))
    else if name = "chan5" then some (fun row => some (sampleScene.chan5 row))
    else if name = "chan7" then some (fun row => some (sampleScene.chan7 row))
    else none
  G_open_raster_new := fun _ => true
  nrows := 2
  ncols := 2
  G_put_d_raster_row := fun _ => true
  outInit := fun _ => DCELL.val 0

/-! ## Double rounding lemmas -/

theorem roundEven_ge (m : ℤ) (q : ℚ) (h : (m : ℚ) - 1 / 2 < q) : m ≤ roundEven q := by
  have hfl : m - 1 ≤ ⌊q⌋ := by
    rw [Int.le_floor]
    push_cast
    linarith
  unfold roundEven
  by_cases hm : m ≤ ⌊q⌋
  · split_ifs <;> omega
  · have he : ⌊q⌋ = m - 1 := by omega
    have hfrac : 1 / 2 < q - ⌊q⌋ := by
      rw [he]
      push_cast
      linarith
    have hn : ¬ (q - ⌊q⌋ < 1 / 2) := by linarith
    rw [if_neg hn, if_pos hfrac]
    omega

theorem roundEven_le (m : ℤ) (q : ℚ) (h : q < (m : ℚ) + 1 / 2) : roundEven q ≤ m := by
  have hfl : ⌊q⌋ ≤ m := by
    have : ⌊q⌋ < m + 1 := by
      rw [Int.floor_lt]
      push_cast
      linarith
    omega
  have hq := Int.floor_le q
  unfold roundEven
  by_cases hm : ⌊q⌋ + 1 ≤ m
  · split_ifs <;> omega
  · have he : ⌊q⌋ = m := by omega
    have hfrac : q - ⌊q⌋ < 1 / 2 := by
      rw [he]
      linarith
    rw [if_pos hfrac]
    omega

theorem roundEven_eq (m : ℤ) (q : ℚ) (h1 : (m : ℚ) - 1 / 2 < q)
    (h2 : q < (m : ℚ) + 1 / 2) : roundEven q = m :=
  le_antisymm (roundEven_le m q h2) (roundEven_ge m q h1)

theorem log2_eq (x : ℚ) (e : ℤ) (h1 : (2 : ℚ) ^ e ≤ x) (h2 : x < (2 : ℚ) ^ (e + 1)) :
    Int.log 2 x = e := by
  have hx : 0 < x := lt_of_lt_of_le (by positivity) h1
  have ha : e ≤ Int.log 2 x := by
    rw [← Int.zpow_le_iff_le_log (by norm_num) hx]
    exact_mod_cast h1
  have hb : Int.log 2 x < e + 1 := by
    rw [← Int.lt_zpow_iff_log_lt (by norm_num) hx]
    exact_mod_cast h2
  omega

/-- Evaluation of `binary64` at a positive number of known binary exponent
`e` whose scaled value lies within one half of the integer `m`. -/
theorem binary64_eq (x : ℚ) (e m : ℤ) (he : -1022 ≤ e)
    (h1 : (2 : ℚ) ^ e ≤ x) (h2 : x < (2 : ℚ) ^ (e + 1))
    (hm1 : (m : ℚ) - 1 / 2 < x / 2 ^ (e - 52))
    (hm2 : x / 2 ^ (e - 52) < (m : ℚ) + 1 / 2) :
    binary64 x = m * 2 ^ (e - 52) := by
  have hx : 0 < x := lt_of_lt_of_le (by positivity) h1
  have hu : ulpExp x = e - 52 := by
    rw [ulpExp, abs_of_pos hx, log2_eq x e h1 h2, max_eq_left he]
  rw [binary64, hu, roundEven_eq m _ hm1 hm2]

/-- The double literal `0.001`. -/
theorem binary64_thousandth :
    binary64 (1 / 1000) = 4611686018427388 / 2 ^ 62 := by
  rw [binary64_eq (1 / 1000) (-10) 4611686018427388] <;> norm_num

/-- The double sum of the doubles nearest to 0.0004 and 0.0006 is the double
`0.001`, although the exact sum is smaller. -/
theorem binary64_boundary_sum :
    binary64 (7378697629483821 / 2 ^ 64 + 5534023222112865 / 2 ^ 63) =
      4611686018427388 / 2 ^ 62 := by
  rw [binary64_eq _ (-10) 4611686018427388] <;> norm_num

/-- The double sum of the doubles nearest to 0.0004 and 0.0003. -/
theorem binary64_dark_sum :
    binary64 (7378697629483821 / 2 ^ 64 + 5534023222112865 / 2 ^ 64) =
      6456360425798343 / 2 ^ 63 := by
  rw [binary64_eq _ (-11) 6456360425798343] <;> norm_num

/-- Rounding never takes a number that is at least 1/1000 below the double
`0.001`. -/
theorem binary64_ge_thousandth (x : ℚ) (hx : 1 / 1000 ≤ x) :
    binary64 (1 / 1000) ≤ binary64 x := by
  rw [binary64_thousandth]
  have hpos : 0 < x := lt_of_lt_of_le (by norm_num) hx
  have habs : |x| = x := abs_of_pos hpos
  have hlog : -10 ≤ Int.log 2 x := by
    rw [← Int.zpow_le_iff_le_log (by norm_num) hpos]
    norm_num
    linarith
  have hu : ulpExp x = Int.log 2 x - 52 := by
    rw [ulpExp, habs, max_eq_left (by omega)]
  have hself : ((2 : ℕ) : ℚ) ^ Int.log 2 x ≤ x := Int.zpow_log_le_self (by norm_num) hpos
  rw [binary64, hu]
  by_cases he : Int.log 2 x = -10
  · rw [he]
    have hm : (4611686018427388 : ℤ) ≤ roundEven (x / 2 ^ ((-10 : ℤ) - 52)) := by
      apply roundEven_ge
      norm_num
      linarith
    have hmq : ((4611686018427388 : ℤ) : ℚ) ≤ (roundEven (x / 2 ^ ((-10 : ℤ) - 52)) : ℚ) := by
      exact_mod_cast hm
    norm_num at hmq ⊢
    linarith
  · have he9 : -9 ≤ Int.log 2 x := by omega
    have hp : (0 : ℚ) < 2 ^ (Int.log 2 x - 52) := by positivity
    have h2 : (2 : ℚ) ^ (52 : ℕ) * 2 ^ (Int.log 2 x - 52) = 2 ^ Int.log 2 x := by
      rw [← zpow_natCast, ← zpow_add₀ (by norm_num)]
      congr 1
      omega
    have hm : ((2 : ℤ) ^ 52 : ℤ) ≤ roundEven (x / 2 ^ (Int.log 2 x - 52)) := by
      apply roundEven_ge
      rw [lt_div_iff₀ hp]
      push_cast at hself ⊢
      nlinarith
    have hmq : ((2 : ℚ) ^ 52) ≤ (roundEven (x / 2 ^ (Int.log 2 x - 52)) : ℚ) := by
      exact_mod_cast hm
    have h9 : (2 : ℚ) ^ (-9 : ℤ) ≤ 2 ^ Int.log 2 x := zpow_le_zpow_right₀ (by norm_num) he9
    calc (4611686018427388 / 2 ^ 62 : ℚ) ≤ 2 ^ (-9 : ℤ) := by norm_num
      _ ≤ 2 ^ Int.log 2 x := h9
      _ = 2 ^ (52 : ℕ) * 2 ^ (Int.log 2 x - 52) := h2.symm
      _ ≤ roundEven (x / 2 ^ (Int.log 2 x - 52)) * 2 ^ (Int.log 2 x - 52) :=
          mul_le_mul_of_nonneg_right hmq (le_of_lt hp)

/-! ## Per-pixel lemmas -/

theorem dispatch_eq_chain (lib : Lib) (v : String) (b : Bundle) (c : DCELL) :
    dispatch lib v b c = dispatchChain lib v b c := by
  by_cases h : v ∈ viNames
  · simp only [viNames, List.mem_cons, List.mem_singleton, List.not_mem_nil, or_false] at h
    rcases h with h | h | h | h | h | h | h | h | h | h | h | h | h | h <;>
      subst h <;> simp [dispatch, dispatchChain, ndviBranch]
  · simp only [viNames, List.mem_cons, List.mem_singleton, List.not_mem_nil, or_false,
      not_or] at h
    simp [dispatch, dispatchChain, h]

theorem dispatch_of_not_mem (lib : Lib) (v : String) (b : Bundle) (c : DCELL)
    (h : v ∉ viNames) : dispatch lib v b c = c := by
  simp only [viNames, List.mem_cons, List.mem_singleton, List.not_mem_nil, or_false,
    not_or] at h
  simp [dispatch, h]

theorem dispatch_cell_irrelevant (lib : Lib) (v : String) (b : Bundle) (c c' : DCELL)
    (h : v ∈ viNames) : dispatch lib v b c = dispatch lib v b c' := by
  simp only [viNames, List.mem_cons, List.mem_singleton, List.not_mem_nil, or_false] at h
  rcases h with h | h | h | h | h | h | h | h | h | h | h | h | h | h <;>
    subst h <;> simp [dispatch]

theorem pixel_cell_irrelevant (lib : Lib) (cfg : Config) (b : Bundle) (c c' : DCELL)
    (h : cfg.viflag ∈ viNames) : pixel lib cfg b c = pixel lib cfg b c' := by
  unfold pixel
  rw [dispatch_cell_irrelevant lib cfg.viflag b c c' h]

theorem dispatch_congr (lib : Lib) (v : String) (a b : Bundle) (c : DCELL)
    (h : agreeOnUsed v a b) : dispatch lib v a c = dispatch lib v b c := by
  obtain ⟨hr, hn, hg, hb, h5, h7⟩ := h
  by_cases hv : v ∈ viNames
  · simp only [viNames, List.mem_cons, List.mem_singleton, List.not_mem_nil, or_false] at hv
    rcases hv with hv | hv | hv | hv | hv | hv | hv | hv | hv | hv | hv | hv | hv | hv <;>
      subst hv <;>
      simp [usesGreen, usesBlue, usesChan5, usesChan7] at hg hb h5 h7 <;>
      simp [dispatch, *]
  · rw [dispatch_of_not_mem lib v a c hv, dispatch_of_not_mem lib v b c hv]

theorem pixel_ndvi_of_sum_ge (lib : Lib) (cfg : Config) (b : Bundle) (cell : DCELL)
    (hnull : anyNull cfg b = false) (hv : cfg.viflag = "ndvi") (r n : ℚ)
    (hr : b.d_redchan = DCELL.val r) (hn : b.d_nirchan = DCELL.val n)
    (hsum : 1 / 1000 ≤ r + n) :
    pixel lib cfg b cell = lib.nd_vi b.d_redchan b.d_nirchan := by
  have hlt : ¬ (binary64 (r + n) < binary64 (1 / 1000)) :=
    not_lt.mpr (binary64_ge_thousandth (r + n) hsum)
  have hguard : ((b.d_redchan.add b.d_nirchan).lt (binary64 (1 / 1000))) = false := by
    rw [hr, hn]
    simp only [DCELL.add, DCELL.lt, decide_eq_false_iff_not]
    exact hlt
  have hd : dispatch lib "ndvi" b cell = lib.nd_vi b.d_redchan b.d_nirchan := by
    simp only [dispatch, hguard]
    simp
  rw [pixel, hnull, hv, hd]
  simp

theorem pixel_ndvi_of_sum_lt (lib : Lib) (cfg : Config) (b : Bundle) (cell : DCELL)
    (hv : cfg.viflag = "ndvi") (r n : ℚ)
    (hr : b.d_redchan = DCELL.val r) (hn : b.d_nirchan = DCELL.val n)
    (hsum : binary64 (r + n) < binary64 (1 / 1000)) :
    pixel lib cfg b cell = DCELL.null := by
  have hguard : ((b.d_redchan.add b.d_nirchan).lt (binary64 (1 / 1000))) = true := by
    rw [hr, hn]
    simp only [DCELL.add, DCELL.lt, decide_eq_true_eq]
    exact hsum
  have hd : dispatch lib "ndvi" b cell = DCELL.null := by
    simp only [dispatch, hguard]
    simp
  unfold pixel
  split
  · rfl
  · rw [hv, hd]

/-! ## Claims on the per-pixel processing -/

/-- C1: for a pixel in which no supplied band is flagged no-data, the per-pixel
processing emits, for each of the fourteen selectors, the result of the
matching library function on the pixel's own band values in the declared
parameter order; for ndvi this holds when red + nir >= 0.001, and for the
other thirteen selectors it holds whatever red + nir is. -/
theorem C1_dispatch_routes (lib : Lib) (cfg : Config) (b : Bundle) (cell : DCELL)
    (hnull : anyNull cfg b = false) :
    (cfg.viflag = "sr" → pixel lib cfg b cell = lib.s_r b.d_redchan b.d_nirchan) ∧
    (cfg.viflag = "ipvi" → pixel lib cfg b cell = lib.ip_vi b.d_redchan b.d_nirchan) ∧
    (cfg.viflag = "dvi" → pixel lib cfg b cell = lib.d_vi b.d_redchan b.d_nirchan) ∧
    (cfg.viflag = "evi" →
      pixel lib cfg b cell = lib.e_vi b.d_bluechan b.d_redchan b.d_nirchan) ∧
    (cfg.viflag = "pvi" → pixel lib cfg b cell = lib.p_vi b.d_redchan b.d_nirchan) ∧
    (cfg.viflag = "wdvi" → pixel lib cfg b cell = lib.wd_vi b.d_redchan b.d_nirchan) ∧
    (cfg.viflag = "savi" → pixel lib cfg b cell = lib.sa_vi b.d_redchan b.d_nirchan) ∧
    (cfg.viflag = "msavi" → pixel lib cfg b cell = lib.msa_vi b.d_redchan b.d_nirchan) ∧
    (cfg.viflag = "msavi2" → pixel lib cfg b cell = lib.msa_vi2 b.d_redchan b.d_nirchan) ∧
    (cfg.viflag = "gemi" → pixel lib cfg b cell = lib.ge_mi b.d_redchan b.d_nirchan) ∧
    (cfg.viflag = "arvi" →
      pixel lib cfg b cell = lib.ar_vi b.d_redchan b.d_nirchan b.d_bluechan) ∧
    (cfg.viflag = "gvi" →
      pixel lib cfg b cell =
        lib.g_vi b.d_bluechan b.d_greenchan b.d_redchan b.d_nirchan b.d_chan5chan
          b.d_chan7chan) ∧
    (cfg.viflag = "gari" →
      pixel lib cfg b cell = lib.ga_ri b.d_redchan b.d_nirchan b.d_bluechan b.d_greenchan) ∧
    (cfg.viflag = "ndvi" → ∀ r n : ℚ, b.d_redchan = DCELL.val r → b.d_nirchan = DCELL.val n →
      1 / 1000 ≤ r + n → pixel lib cfg b cell = lib.nd_vi b.d_redchan b.d_nirchan) := by
  refine ⟨?_, ?_, ?_, ?_, ?_, ?_, ?_, ?_, ?_, ?_, ?_, ?_, ?_, ?_⟩
  case refine_14 =>
    intro hv r n hr hn hsum
    exact pixel_ndvi_of_sum_ge lib cfg b cell hnull hv r n hr hn hsum
  all_goals
    intro hv
    simp [pixel, hnull, hv, dispatch]

/-- Instance of C1: selector sr on the pixel red = 0.2, nir = 0.5 with the
probe library, whose `s_r` returns 1. -/
theorem C1_dispatch_routes_witness :
    anyNull (cfgRedNir "sr") (samplePixel (DCELL.val 0)) = false ∧
    pixel probeLib (cfgRedNir "sr") (samplePixel (DCELL.val 0)) (DCELL.val 0) =
      DCELL.val 1 :=
  ⟨rfl, (C1_dispatch_routes probeLib (cfgRedNir "sr") (samplePixel (DCELL.val 0))
    (DCELL.val 0) rfl).1 rfl⟩

/-- C2: for every selector and every pixel, if red or nir is flagged no-data,
or a band that the selector consumes and that is supplied for the run is
flagged no-data, the output value is no-data, whatever the library functions
would return. -/
theorem C2_null_propagates (lib : Lib) (cfg : Config) (b : Bundle) (cell : DCELL)
    (h : b.d_redchan = DCELL.null ∨ b.d_nirchan = DCELL.null ∨
      (usesGreen cfg.viflag = true ∧ cfg.greenchan.isSome = true ∧ b.d_greenchan = DCELL.null) ∨
      (usesBlue cfg.viflag = true ∧ cfg.bluechan.isSome = true ∧ b.d_bluechan = DCELL.null) ∨
      (usesChan5 cfg.viflag = true ∧ cfg.chan5chan.isSome = true ∧ b.d_chan5chan = DCELL.null) ∨
      (usesChan7 cfg.viflag = true ∧ cfg.chan7chan.isSome = true ∧ b.d_chan7chan = DCELL.null)) :
    pixel lib cfg b cell = DCELL.null := by
  have hn : anyNull cfg b = true := by
    rcases h with h | h | ⟨_, hs, h⟩ | ⟨_, hs, h⟩ | ⟨_, hs, h⟩ | ⟨_, hs, h⟩
    · simp [anyNull, h, DCELL.G_is_d_null_value]
    · simp [anyNull, h, DCELL.G_is_d_null_value]
    all_goals simp [anyNull, h, hs, DCELL.G_is_d_null_value]
  simp [pixel, hn]

/-- Instance of C2: selector evi with a supplied blue band that is null at the
pixel; the probe library's `e_vi` would return 5. -/
theorem C2_null_propagates_witness :
    (usesBlue (cfgWithBlue "evi").viflag = true ∧
      (cfgWithBlue "evi").bluechan.isSome = true ∧
      (samplePixel DCELL.null).d_bluechan = DCELL.null) ∧
    pixel probeLib (cfgWithBlue "evi") (samplePixel DCELL.null) (DCELL.val 0) =
      DCELL.null :=
  ⟨⟨by decide, rfl, rfl⟩,
   C2_null_propagates probeLib (cfgWithBlue "evi") (samplePixel DCELL.null) (DCELL.val 0)
    (Or.inr (Or.inr (Or.inr (Or.inl ⟨by decide, rfl, rfl⟩))))⟩

/-- C3, as stated, fails: with selector ndvi, red and nir the doubles nearest
to 0.0004 and 0.0006 have an exact sum below 0.001 (and below the double
0.001), yet their double sum is the double 0.001, the test at line 261 is
false and the output is `nd_vi(red, nir)`, not no-data. -/
theorem C3_counterexample :
    boundaryPixel.d_redchan = DCELL.val (7378697629483821 / 2 ^ 64) ∧
    boundaryPixel.d_nirchan = DCELL.val (5534023222112865 / 2 ^ 63) ∧
    binary64 (7378697629483821 / 2 ^ 64) = 7378697629483821 / 2 ^ 64 ∧
    binary64 (5534023222112865 / 2 ^ 63) = 5534023222112865 / 2 ^ 63 ∧
    (7378697629483821 / 2 ^ 64 + 5534023222112865 / 2 ^ 63 : ℚ) < 1 / 1000 ∧
    (7378697629483821 / 2 ^ 64 + 5534023222112865 / 2 ^ 63 : ℚ) < binary64 (1 / 1000) ∧
    (∀ lib : Lib, pixel lib (cfgRedNir "ndvi") boundaryPixel (DCELL.val 0) =
      lib.nd_vi boundaryPixel.d_redchan boundaryPixel.d_nirchan) ∧
    pixel probeLib (cfgRedNir "ndvi") boundaryPixel (DCELL.val 0) = DCELL.val 2 := by
  have hpix : ∀ lib : Lib, pixel lib (cfgRedNir "ndvi") boundaryPixel (DCELL.val 0) =
      lib.nd_vi boundaryPixel.d_redchan boundaryPixel.d_nirchan := by
    intro lib
    have hguard : ((boundaryPixel.d_redchan.add boundaryPixel.d_nirchan).lt
        (binary64 (1 / 1000))) = false := by
      simp only [boundaryPixel, DCELL.add, DCELL.lt, decide_eq_false_iff_not]
      rw [binary64_boundary_sum, binary64_thousandth]
      exact lt_irrefl _
    have hd : dispatch lib "ndvi" boundaryPixel (DCELL.val 0) =
        lib.nd_vi boundaryPixel.d_redchan boundaryPixel.d_nirchan := by
      simp only [dispatch, hguard]
      simp
    have ha : anyNull (cfgRedNir "ndvi") boundaryPixel = false := rfl
    have hv : (cfgRedNir "ndvi").viflag = "ndvi" := rfl
    rw [pixel, ha, hv, hd]
    simp
  refine ⟨rfl, rfl, ?_, ?_, by norm_num, ?_, hpix, ?_⟩
  · rw [binary64_eq _ (-12) 7378697629483821] <;> norm_num
  · rw [binary64_eq _ (-11) 5534023222112865] <;> norm_num
  · rw [binary64_thousandth]
    norm_num
  · rw [hpix probeLib]
    rfl

/-- C3, amended: with selector ndvi, a pixel whose red and nir have a double
sum (the exact sum rounded to the nearest double, as line 261 computes it)
below the double 0.001 gets no-data, whatever the two values are and whatever
`nd_vi` would return. -/
theorem C3_ndvi_guard (lib : Lib) (cfg : Config) (b : Bundle) (cell : DCELL) (r n : ℚ)
    (hv : cfg.viflag = "ndvi") (hr : b.d_redchan = DCELL.val r)
    (hn : b.d_nirchan = DCELL.val n)
    (hsum : binary64 (r + n) < binary64 (1 / 1000)) :
    pixel lib cfg b cell = DCELL.null :=
  pixel_ndvi_of_sum_lt lib cfg b cell hv r n hr hn hsum

/-- Instance of C3 amended: red and nir the doubles nearest to 0.0004 and
0.0003 give no-data although the probe library's `nd_vi` would return 2. -/
theorem C3_ndvi_guard_witness :
    binary64 (7378697629483821 / 2 ^ 64 + 5534023222112865 / 2 ^ 64) <
      binary64 (1 / 1000) ∧
    pixel probeLib (cfgRedNir "ndvi") darkPixel (DCELL.val 0) = DCELL.null :=
  ⟨by rw [binary64_dark_sum, binary64_thousandth]; norm_num,
   C3_ndvi_guard probeLib (cfgRedNir "ndvi") darkPixel (DCELL.val 0)
    (7378697629483821 / 2 ^ 64) (5534023222112865 / 2 ^ 64) rfl rfl rfl
    (by rw [binary64_dark_sum, binary64_thousandth]; norm_num)⟩

/-- C4, as stated, fails: with selector sr, red = 0.2, nir = 0.5 and a
supplied blue band flagged no-data, the output is no-data for every library,
whereas the pixel that differs only in having a non-null blue cell gets
`s_r(red, nir)`. -/
theorem C4_counterexample :
    agreeOnUsed "sr" (samplePixel DCELL.null) (samplePixel (DCELL.val 0)) ∧
    (∀ lib : Lib,
      pixel lib (cfgWithBlue "sr") (samplePixel DCELL.null) (DCELL.val 0) = DCELL.null) ∧
    (∀ lib : Lib,
      pixel lib (cfgWithBlue "sr") (samplePixel (DCELL.val 0)) (DCELL.val 0) =
        lib.s_r (DCELL.val (1 / 5)) (DCELL.val (1 / 2))) ∧
    pixel probeLib (cfgWithBlue "sr") (samplePixel DCELL.null) (DCELL.val 0) ≠
      pixel probeLib (cfgWithBlue "sr") (samplePixel (DCELL.val 0)) (DCELL.val 0) := by
  refine ⟨?_, ?_, ?_, ?_⟩
  · simp [agreeOnUsed, samplePixel, usesGreen, usesBlue, usesChan5, usesChan7]
  · intro lib
    simp [pixel, anyNull, cfgWithBlue, samplePixel, DCELL.G_is_d_null_value]
  · intro lib
    simp [pixel, anyNull, cfgWithBlue, samplePixel, DCELL.G_is_d_null_value, dispatch]
  · simp [pixel, anyNull, cfgWithBlue, samplePixel, DCELL.G_is_d_null_value, dispatch, probeLib]

/-- C4, amended: two pixels that agree on every band the selector consumes,
and on whether some supplied band (consumed or not) is flagged no-data, get
the same output, even when they differ in the value of a supplied band the
selector does not consume; and a no-data flag on any supplied band makes the
output no-data. -/
theorem C4_unused_bands_frame (lib : Lib) (cfg : Config) (a b : Bundle) (cell : DCELL)
    (hagree : agreeOnUsed cfg.viflag a b) (hflags : anyNull cfg a = anyNull cfg b) :
    pixel lib cfg a cell = pixel lib cfg b cell ∧
    (anyNull cfg a = true → pixel lib cfg a cell = DCELL.null) := by
  constructor
  · unfold pixel
    rw [hflags, dispatch_congr lib cfg.viflag a b cell hagree]
  · intro h
    simp [pixel, h]

/-- Instance of C4 amended: selector sr with a supplied blue band, two pixels
with different non-null blue values. -/
theorem C4_unused_bands_frame_witness :
    agreeOnUsed (cfgWithBlue "sr").viflag (samplePixel (DCELL.val 1)) (samplePixel (DCELL.val 0)) ∧
    anyNull (cfgWithBlue "sr") (samplePixel (DCELL.val 1)) =
      anyNull (cfgWithBlue "sr") (samplePixel (DCELL.val 0)) ∧
    pixel probeLib (cfgWithBlue "sr") (samplePixel (DCELL.val 1)) (DCELL.val 0) =
      pixel probeLib (cfgWithBlue "sr") (samplePixel (DCELL.val 0)) (DCELL.val 0) :=
  ⟨by simp [agreeOnUsed, samplePixel, cfgWithBlue, usesGreen, usesBlue, usesChan5, usesChan7],
   rfl,
   (C4_unused_bands_frame probeLib (cfgWithBlue "sr") (samplePixel (DCELL.val 1))
    (samplePixel (DCELL.val 0)) (DCELL.val 0)
    (by simp [agreeOnUsed, samplePixel, cfgWithBlue, usesGreen, usesBlue, usesChan5, usesChan7])
    rfl).1⟩

/-- C6, as stated, fails: with selector ndvi, red = 0.2 and nir = 0.5 (both
non-null, in [0, 1], sum at least 0.001) and a supplied blue band flagged
no-data, the output is no-data, not a number. -/
theorem C6_counterexample :
    ((0 : ℚ) ≤ 1 / 5 ∧ (1 / 5 : ℚ) ≤ 1 ∧ (0 : ℚ) ≤ 1 / 2 ∧ (1 / 2 : ℚ) ≤ 1 ∧
      (1 / 1000 : ℚ) ≤ 1 / 5 + 1 / 2) ∧
    (samplePixel DCELL.null).d_redchan = DCELL.val (1 / 5) ∧
    (samplePixel DCELL.null).d_nirchan = DCELL.val (1 / 2) ∧
    ndviLib.nd_vi = nd_vi ∧
    pixel ndviLib (cfgWithBlue "ndvi") (samplePixel DCELL.null) (DCELL.val 0) =
      DCELL.null := by
  refine ⟨by norm_num, rfl, rfl, rfl, ?_⟩
  simp [pixel, anyNull, cfgWithBlue, samplePixel, DCELL.G_is_d_null_value]

/-- C6, amended: with selector ndvi and `nd_vi` the spec formula, a pixel in
which no supplied band is flagged no-data, with red and nir in [0, 1] and
red + nir >= 0.001, gets a number; the denominator nir + red is non-zero and
the number, (nir - red) / (nir + red), lies in [-1, 1]. -/
theorem C6_ndvi_range (lib : Lib) (cfg : Config) (b : Bundle) (cell : DCELL) (r n : ℚ)
    (hlib : lib.nd_vi = nd_vi) (hv : cfg.viflag = "ndvi")
    (hnull : anyNull cfg b = false)
    (hr : b.d_redchan = DCELL.val r) (hn : b.d_nirchan = DCELL.val n)
    (hr0 : 0 ≤ r) (_hr1 : r ≤ 1) (hn0 : 0 ≤ n) (_hn1 : n ≤ 1)
    (hsum : 1 / 1000 ≤ r + n) :
    n + r ≠ 0 ∧
    pixel lib cfg b cell = DCELL.val ((n - r) / (n + r)) ∧
    -1 ≤ (n - r) / (n + r) ∧ (n - r) / (n + r) ≤ 1 := by
  have hpos : 0 < n + r := by linarith
  refine ⟨ne_of_gt hpos, ?_, ?_, ?_⟩
  · rw [(pixel_ndvi_of_sum_ge lib cfg b cell hnull hv r n hr hn hsum), hlib, hr, hn]
    rfl
  · rw [le_div_iff₀ hpos]
    linarith
  · rw [div_le_iff₀ hpos]
    linarith

/-- Instance of C6 amended: red = 0.2, nir = 0.5 gives (0.5 - 0.2) / 0.7. -/
theorem C6_ndvi_range_witness :
    anyNull (cfgRedNir "ndvi") (samplePixel (DCELL.val 0)) = false ∧
    pixel ndviLib (cfgRedNir "ndvi") (samplePixel (DCELL.val 0)) (DCELL.val 0) =
      DCELL.val ((1 / 2 - 1 / 5) / (1 / 2 + 1 / 5)) :=
  ⟨rfl,
   (C6_ndvi_range ndviLib (cfgRedNir "ndvi") (samplePixel (DCELL.val 0)) (DCELL.val 0)
    (1 / 5) (1 / 2) rfl rfl rfl rfl rfl (by norm_num) (by norm_num) (by norm_num)
    (by norm_num) (by norm_num)).2.1⟩

/-- C10: the fourteen names are pairwise distinct, so at most one of the
fourteen sequential tests succeeds for any selector string, and the
sequential dispatch computes the same cell as an if / else-if chain and as a
first-match lookup in a table keyed by the same fourteen names. -/
theorem C10_dispatch_is_first_match :
    viNames.Nodup ∧
    (∀ lib : Lib, (viTable lib).map Prod.fst = viNames) ∧
    (∀ v : String, (branchTests v).count true ≤ 1) ∧
    (∀ (lib : Lib) (v : String) (b : Bundle) (cell : DCELL),
      dispatch lib v b cell = dispatchChain lib v b cell ∧
      dispatch lib v b cell = dispatchTable lib v b cell) := by
  refine ⟨by decide, fun _ => rfl, ?_, ?_⟩
  · intro v
    by_cases h : v ∈ viNames
    · simp only [viNames, List.mem_cons, List.mem_singleton, List.not_mem_nil, or_false] at h
      rcases h with h | h | h | h | h | h | h | h | h | h | h | h | h | h <;>
        subst h <;> decide
    · simp only [viNames, List.mem_cons, List.mem_singleton, List.not_mem_nil, or_false,
        not_or] at h
      simp [branchTests, h]
  · intro lib v b cell
    refine ⟨dispatch_eq_chain lib v b cell, ?_⟩
    rw [dispatch_eq_chain]
    simp only [dispatchTable, viTable, lookupFirst, dispatchChain]

/-! ## Run-level lemmas -/

theorem colLoop_ok (lib : Lib) (cfg : Config) (bufs : Bufs) (g : Nat → Bundle)
    (hload : ∀ col, load bufs col = some (g col)) (n c : Nat) (out : RowBuf) :
    colLoop lib cfg bufs n c out =
      .ok (fun j => if c ≤ j ∧ j < c + n then pixel lib cfg (g j) (out j) else out j) := by
  induction n generalizing c out with
  | zero =>
    have h0 : ∀ j, ¬ (c ≤ j ∧ j < c + 0) := fun j => by omega
    simp only [colLoop, h0, if_false]
  | succ n ih =>
    rw [colLoop, hload c]
    simp only
    rw [ih]
    congr 1
    funext j
    by_cases hj : j = c
    · subst hj
      simp
    · have h1 : (c + 1 ≤ j ∧ j < c + 1 + n) ↔ (c ≤ j ∧ j < c + (n + 1)) := by omega
      simp only [h1, Function.update_noteq hj]

theorem colLoop_sweep (lib : Lib) (cfg : Config) (s : Scene) (bufs : Bufs) (row ncols : Nat)
    (init : RowBuf) (hload : ∀ col, load bufs col = some (s.bundle row col)) :
    colLoop lib cfg bufs ncols 0 (sweep lib cfg s ncols row init) =
      .ok (sweep lib cfg s ncols (row + 1) init) := by
  rw [colLoop_ok lib cfg bufs (s.bundle row) hload]
  congr 1
  funext j
  simp [sweep]

theorem rowLoop_ok (lib : Lib) (env : Env) (cfg : Config) (h : Handles) (s : Scene)
    (n row : Nat) (written : List (List DCELL))
    (hread : ∀ i, row ≤ i → i < row + n →
      ∃ bufs, readRows cfg h i = .ok bufs ∧ ∀ col, load bufs col = some (s.bundle i col))
    (hput : ∀ i, row ≤ i → i < row + n → env.G_put_d_raster_row i = true) :
    rowLoop lib env cfg h n row (sweep lib cfg s env.ncols row env.outInit) written =
      .ok (written ++ (List.range' row n).map
        (fun i => putRow env.ncols (sweep lib cfg s env.ncols (i + 1) env.outInit))) := by
  induction n generalizing row written with
  | zero => simp [rowLoop]
  | succ n ih =>
    obtain ⟨bufs, hb, hl⟩ := hread row (le_refl _) (by omega)
    rw [rowLoop, hb]
    simp only
    rw [colLoop_sweep lib cfg s bufs row env.ncols env.outInit hl]
    simp only [hput row (le_refl _) (by omega), if_true]
    rw [ih (row + 1) _ (fun i h1 h2 => hread i (by omega) (by omega))
      (fun i h1 h2 => hput i (by omega) (by omega))]
    simp [List.range'_succ]

theorem configure_complete (env : Env) (cfg : Config) (s : Scene)
    (hc : Complete env cfg s) :
    ∃ h, configure env cfg = .ok h ∧
      ∀ i, i < env.nrows →
        ∃ bufs, readRows cfg h i = .ok bufs ∧ ∀ col, load bufs col = some (s.bundle i col) := by
  obtain ⟨⟨mr, hr, hrr⟩, ⟨mn, hn, hnr⟩, ⟨g, hg, mg, hgo, hgr⟩, ⟨b, hb, mb, hbo, hbr⟩,
    ⟨c5, h5, m5, h5o, h5r⟩, ⟨c7, h7, m7, h7o, h7r⟩, hnew, _⟩ := hc
  refine ⟨⟨mr, mn, some mg, some mb, some m5, some m7⟩, ?_, ?_⟩
  · simp [configure, openBand, openOptional, hr, hn, hg, hb, h5, h7, hgo, hbo, h5o, h7o, hnew]
  · intro i hi
    refine ⟨⟨s.red i, s.nir i, some (s.green i), some (s.blue i), some (s.chan5 i),
      some (s.chan7 i)⟩, ?_, fun col => rfl⟩
    simp [readRows, getRow, getOptionalRow, hg, hb, h5, h7, hrr i hi, hnr i hi, hgr i hi,
      hbr i hi, h5r i hi, h7r i hi]

/-- A run over a scene with all six bands supplied and no failing backend
call completes, and its rows are the successive contents of the row buffer. -/
theorem main_complete (lib : Lib) (env : Env) (cfg : Config) (s : Scene)
    (hc : Complete env cfg s) :
    main lib env cfg =
      .ok ((List.range env.nrows).map
        (fun i => putRow env.ncols (sweep lib cfg s env.ncols (i + 1) env.outInit))) := by
  obtain ⟨h, hcfg, hread⟩ := configure_complete env cfg s hc
  have hput := hc.2.2.2.2.2.2.2
  rw [main, hcfg]
  have := rowLoop_ok lib env cfg h s env.nrows 0 []
    (fun i _ h2 => hread i (by omega)) (fun i _ h2 => hput i (by omega))
  have h0 : sweep lib cfg s env.ncols 0 env.outInit = env.outInit := rfl
  rw [h0, List.nil_append] at this
  simp only [this, List.range_eq_range']

theorem sweep_succ_apply (lib : Lib) (cfg : Config) (s : Scene) (ncols row : Nat)
    (init : RowBuf) (j : Nat) (hj : j < ncols) :
    sweep lib cfg s ncols (row + 1) init j =
      pixel lib cfg (s.bundle row j) (sweep lib cfg s ncols row init j) := by
  simp [sweep, hj]

/-- With all six bands supplied and no failing backend call, a run with one
of the fourteen selectors writes nrows rows of ncols cells, and the cell at
column j of row i is the per-pixel result on the six input cells at row i and
column j, whatever the row buffer held before. -/
theorem main_all_bands (lib : Lib) (env : Env) (cfg : Config) (s : Scene)
    (prior : Nat → Nat → DCELL) (hv : cfg.viflag ∈ viNames) (hc : Complete env cfg s) :
    main lib env cfg =
      .ok ((List.range env.nrows).map (fun i =>
        (List.range env.ncols).map (fun j =>
          pixel lib cfg (s.bundle i j) (prior i j)))) := by
  rw [main_complete lib env cfg s hc]
  congr 1
  apply List.map_congr_left
  intro i _
  unfold putRow
  apply List.map_congr_left
  intro j hj
  rw [sweep_succ_apply lib cfg s env.ncols i env.outInit j (List.mem_range.mp hj)]
  exact pixel_cell_irrelevant lib cfg _ _ _ hv

theorem sample_complete (v : String) : Complete sampleEnv (cfgSix v) sampleScene :=
  ⟨⟨_, rfl, fun _ _ => rfl⟩, ⟨_, rfl, fun _ _ => rfl⟩,
   ⟨_, rfl, _, rfl, fun _ _ => rfl⟩, ⟨_, rfl, _, rfl, fun _ _ => rfl⟩,
   ⟨_, rfl, _, rfl, fun _ _ => rfl⟩, ⟨_, rfl, _, rfl, fun _ _ => rfl⟩,
   rfl, fun _ _ => rfl⟩

/-- Instance of `main_all_bands`: selector dvi with all six bands of the
sample scene and `d_vi` echoing red. The output row i holds, at column j, the
red cell of row i and column j, and no-data at the last cell, where blue is
null. -/
theorem main_all_bands_sample :
    Complete sampleEnv (cfgSix "dvi") sampleScene ∧
    main echoLib sampleEnv (cfgSix "dvi") =
      .ok [[DCELL.val (1 / 10), DCELL.val (2 / 10)], [DCELL.val (3 / 10), DCELL.null]] ∧
    main echoLib sampleEnv (cfgSix "dvi") =
      .ok ((List.range sampleEnv.nrows).map (fun i =>
        (List.range sampleEnv.ncols).map (fun j =>
          pixel echoLib (cfgSix "dvi") (sampleScene.bundle i j) DCELL.null))) :=
  ⟨sample_complete "dvi", rfl,
   main_all_bands echoLib sampleEnv (cfgSix "dvi") sampleScene (fun _ _ => DCELL.null)
    (by decide) (sample_complete "dvi")⟩

theorem readRows_fields (cfg : Config) (h : Handles) (row : Nat) (bufs : Bufs)
    (hread : readRows cfg h row = .ok bufs) :
    getOptionalRow cfg.greenchan h.infd_greenchan row = .ok bufs.inrast_greenchan ∧
    getOptionalRow cfg.bluechan h.infd_bluechan row = .ok bufs.inrast_bluechan ∧
    getOptionalRow cfg.chan5chan h.infd_chan5chan row = .ok bufs.inrast_chan5chan ∧
    getOptionalRow cfg.chan7chan h.infd_chan7chan row = .ok bufs.inrast_chan7chan := by
  unfold readRows at hread
  cases h1 : getRow h.infd_redchan cfg.redchan row <;> rw [h1] at hread <;>
    simp only [reduceCtorEq] at hread
  cases h2 : getRow h.infd_nirchan cfg.nirchan row <;> rw [h2] at hread <;>
    simp only [reduceCtorEq] at hread
  cases h3 : getOptionalRow cfg.greenchan h.infd_greenchan row <;> rw [h3] at hread <;>
    simp only [reduceCtorEq] at hread
  cases h4 : getOptionalRow cfg.bluechan h.infd_bluechan row <;> rw [h4] at hread <;>
    simp only [reduceCtorEq] at hread
  cases h5 : getOptionalRow cfg.chan5chan h.infd_chan5chan row <;> rw [h5] at hread <;>
    simp only [reduceCtorEq] at hread
  cases h6 : getOptionalRow cfg.chan7chan h.infd_chan7chan row <;> rw [h6] at hread <;>
    simp only [reduceCtorEq] at hread
  simp only [Except.ok.injEq] at hread
  subst hread
  exact ⟨rfl, rfl, rfl, rfl⟩

/-- Whenever an optional band is not supplied, the first pixel of a
non-empty region is loaded through a pointer that was never assigned: once
configuration has succeeded and row 0 has been read, the run ends in an
undefined load at row 0, column 0, whatever the selector. -/
theorem main_missing_band (lib : Lib) (env : Env) (cfg : Config) (h : Handles)
    (bufs : Bufs)
    (hmiss : cfg.greenchan = none ∨ cfg.bluechan = none ∨ cfg.chan5chan = none ∨
      cfg.chan7chan = none)
    (hrows : 0 < env.nrows) (hcols : 0 < env.ncols)
    (hcfg : configure env cfg = .ok h) (hread : readRows cfg h 0 = .ok bufs) :
    main lib env cfg = .error (Stop.undefinedLoad 0 0) := by
  obtain ⟨hg, hb, h5, h7⟩ := readRows_fields cfg h 0 bufs hread
  have hload : load bufs 0 = none := by
    unfold load
    rcases hmiss with hm | hm | hm | hm
    · have e : bufs.inrast_greenchan = none := by
        rw [hm] at hg
        simp only [getOptionalRow, Except.ok.injEq] at hg
        exact hg.symm
      rw [e]
    · have e : bufs.inrast_bluechan = none := by
        rw [hm] at hb
        simp only [getOptionalRow, Except.ok.injEq] at hb
        exact hb.symm
      rw [e]
      cases bufs.inrast_greenchan <;> rfl
    · have e : bufs.inrast_chan5chan = none := by
        rw [hm] at h5
        simp only [getOptionalRow, Except.ok.injEq] at h5
        exact h5.symm
      rw [e]
      cases bufs.inrast_greenchan <;> cases bufs.inrast_bluechan <;> rfl
    · have e : bufs.inrast_chan7chan = none := by
        rw [hm] at h7
        simp only [getOptionalRow, Except.ok.injEq] at h7
        exact h7.symm
      rw [e]
      cases bufs.inrast_greenchan <;> cases bufs.inrast_bluechan <;>
        cases bufs.inrast_chan5chan <;> rfl
  obtain ⟨n, hn⟩ : ∃ n, env.nrows = n + 1 := ⟨env.nrows - 1, by omega⟩
  obtain ⟨m, hm⟩ : ∃ m, env.ncols = m + 1 := ⟨env.ncols - 1, by omega⟩
  rw [main, hcfg]
  simp only
  rw [hn, rowLoop, hread]
  simp only
  rw [hm, colLoop, hload]

/-! ## Claims on the run -/

/-- C5: selector evi without a blue band identifier is not rejected at
configuration time. With green, chan5 and chan7 supplied and blue missing, or
with red and nir only, configuration succeeds, row 0 is read, and the first
pixel is loaded through a row-buffer pointer that was never assigned
(`inrast_bluechan` at line 242 in the first case): the run ends in an
undefined load at row 0, column 0. -/
theorem C5_evi_without_blue :
    requiresMissing (cfgNoBlue "evi") = true ∧
    requiresMissing (cfgRedNir "evi") = true ∧
    (∃ h, configure sampleEnv (cfgNoBlue "evi") = .ok h) ∧
    (∃ h, configure sampleEnv (cfgRedNir "evi") = .ok h) ∧
    (∀ lib : Lib,
      main lib sampleEnv (cfgNoBlue "evi") = .error (Stop.undefinedLoad 0 0)) ∧
    (∀ lib : Lib,
      main lib sampleEnv (cfgRedNir "evi") = .error (Stop.undefinedLoad 0 0)) :=
  ⟨by decide, by decide, ⟨_, rfl⟩, ⟨_, rfl⟩, fun _ => rfl, fun _ => rfl⟩

/-- C7: with selector ndvi and only red and nir supplied, over the 2 x 2
sample region, configuration succeeds and row 0 of red and nir is read, but
no row is written: the first pixel loads `d_greenchan` through the
never-assigned `inrast_greenchan` (line 241) and the run ends in an undefined
load at row 0, column 0. -/
theorem C7_red_nir_only_run :
    "ndvi" ∈ viNames ∧
    (cfgRedNir "ndvi").greenchan = none ∧
    (∃ h, configure sampleEnv (cfgRedNir "ndvi") = .ok h) ∧
    (∀ lib : Lib,
      main lib sampleEnv (cfgRedNir "ndvi") = .error (Stop.undefinedLoad 0 0)) :=
  ⟨by decide, rfl, ⟨_, rfl⟩, fun _ => rfl⟩

end IVi
